import Mathlib

/-!
Verification development for the ghg-quant emissions pipeline.

Shallow embedding of the pipeline core:
* `src/src/data/validation.py`  (`GHGDataValidator.validate_dataframe`)
* `src/src/data/ingestion.py`   (`DataIngestion.read_file`, `list_available_files`)
* `src/src/data/sources/epa.py` (`EPADataSource.preprocess_data`)
* `src/src/analysis/regional.py` (`RegionalAnalysis.county_statistics`,
  `industry_analysis`, `temporal_analysis`)

Pandas DataFrames are modelled column-major: a frame is a list of named
columns of cell values.  Cell values are strings, integers, rationals
(standing for the float payloads; no claim here depends on rounding),
timestamps (encoded as integers `y*10000 + m*100 + d`, an order-preserving
encoding of calendar dates), or NaN/NaT.  Python exceptions are modelled
with `Except PyErr`; code that catches `ValueError` is translated by
matching on the `PyErr.valueError` constructor only.
-/

namespace GhgQuant

/-- Exact fraction arithmetic standing in for the float payloads (no claim
here depends on rounding).  Fractions are kept unnormalized so that every
operation is plain integer arithmetic; the denominator is positive in
every value the pipeline constructs. -/
structure Frac where
  num : Int
  den : Int
deriving DecidableEq, Repr

namespace Frac

/-- Embed an integer. -/
def ofInt (n : Int) : Frac := ⟨n, 1⟩

/-- Addition by cross multiplication. -/
def add (a b : Frac) : Frac := ⟨a.num * b.den + b.num * a.den, a.den * b.den⟩

/-- Division (used for means and per-facility ratios). -/
def div (a b : Frac) : Frac := ⟨a.num * b.den, a.den * b.num⟩

/-- Strict comparison by cross multiplication (denominators positive). -/
def blt (a b : Frac) : Bool := decide (a.num * b.den < b.num * a.den)

/-- Non-strict comparison by cross multiplication. -/
def ble (a b : Frac) : Bool := decide (a.num * b.den ≤ b.num * a.den)

/-- Truncation toward zero (Python `int()` / pandas `astype("int64")`). -/
def trunc (a : Frac) : Int := Int.tdiv a.num a.den

end Frac

/-- A pandas cell value. -/
inductive Value where
  | str (s : String)
  | int (n : Int)
  | float (q : Frac)
  | date (t : Int)
  | nan
deriving DecidableEq, Repr

/-- Column dtypes the validator distinguishes. -/
inductive Dtype where
  | object
  | int64
  | float64
  | datetime64
deriving DecidableEq, Repr

/-- Python exception classes raised by the modelled code paths. -/
inductive PyErr where
  | valueError (msg : String)
  | typeError (msg : String)
  | keyError (key : String)
  | attributeError (msg : String)
  | fileNotFound (name : String)
deriving DecidableEq, Repr

/-- Column-major DataFrame: named columns of cell values. -/
structure DataFrame where
  cols : List (String × List Value)
deriving DecidableEq, Repr

namespace DataFrame

/-- `df.columns` as a list of labels. -/
def colNames (df : DataFrame) : List String := df.cols.map Prod.fst

end DataFrame

/-- `df[c]` read access: values of the first column labelled `c`. -/
def getColValues (df : DataFrame) (c : String) : Option (List Value) :=
  (df.cols.find? (fun p => p.1 == c)).map Prod.snd

/-- Replace the first column labelled `c`, or append a new column
(`df[c] = values` creates the column at the end when absent). -/
def setColAux (c : String) (vs : List Value) : List (String × List Value) → List (String × List Value)
  | [] => [(c, vs)]
  | (n, ws) :: rest => if n = c then (n, vs) :: rest else (n, ws) :: setColAux c vs rest

/-- `df[c] = values` as a functional update of the frame. -/
def setColValues (df : DataFrame) (c : String) (vs : List Value) : DataFrame :=
  ⟨setColAux c vs df.cols⟩

/-- Row count of the frame (columns are uniform in every frame the
pipeline builds; we read the first column as pandas reads `len(df.index)`). -/
def rowCount (df : DataFrame) : Nat :=
  match df.cols with
  | [] => 0
  | p :: _ => p.2.length

/-- `df.empty`: true when either axis has length zero. -/
def dfEmpty (df : DataFrame) : Bool :=
  df.cols.isEmpty || rowCount df == 0

/-- `df[c]` with the `KeyError` pandas raises for a missing label. -/
def getColE (df : DataFrame) (c : String) : Except PyErr (List Value) :=
  match getColValues df c with
  | some vs => .ok vs
  | none => .error (.keyError c)

/-- Is the value NaN/NaT? -/
def Value.isNan : Value → Bool
  | .nan => true
  | _ => false

/-- dtype inference from stored values, mirroring how pandas types the
columns the pipeline actually constructs: any string makes the column
`object`; datetimes make it `datetime64`; the presence of a float or a
missing value among numbers makes it `float64`; otherwise `int64`.
An empty column is typed `object` (the pandas default for empty data). -/
def dtypeOf (vs : List Value) : Dtype :=
  if vs.isEmpty then .object
  else if vs.any (fun v => match v with | .str _ => true | _ => false) then .object
  else if vs.any (fun v => match v with | .date _ => true | _ => false) then
    (if vs.all (fun v => match v with | .date _ => true | .nan => true | _ => false)
     then .datetime64 else .object)
  else if vs.any (fun v => match v with | .float _ => true | .nan => true | _ => false) then .float64
  else .int64

/-- Digits of a numeral string folded to a natural number. -/
def digitsToNat (cs : List Char) : Nat :=
  cs.foldl (fun a c => a * 10 + (c.toNat - 48)) 0

/-- Python `float(s)` on the plain decimal forms the pipeline meets
(optional sign, digits, optional fractional part; exponent forms are not
exercised by the data and are not modelled).  Returns `none` where
`float(s)` raises `ValueError`. -/
def parseFloat (s : String) : Option Frac :=
  let cs := s.toList
  let (neg, body) :=
    match cs with
    | '-' :: rest => (true, rest)
    | '+' :: rest => (false, rest)
    | _ => (false, cs)
  let ip := body.takeWhile (fun c => c ≠ '.')
  let rest := body.dropWhile (fun c => c ≠ '.')
  let fp := match rest with
    | [] => []
    | _ :: tail => tail
  if ip.all Char.isDigit ∧ fp.all Char.isDigit ∧
      (ip ≠ [] ∨ fp ≠ []) ∧ !(fp.any (fun c => c = '.')) then
    let mag : Frac := ⟨(digitsToNat ip : Int) * (10 ^ fp.length : Nat) + (digitsToNat fp : Int),
      ((10 ^ fp.length : Nat) : Int)⟩
    some (if neg then ⟨-mag.num, mag.den⟩ else mag)
  else none

/-- Split a character list on a separator (structural stand-in for
`String.splitOn`). -/
def splitOnChar (sep : Char) : List Char → List (List Char)
  | [] => [[]]
  | x :: rest =>
    match splitOnChar sep rest with
    | [] => if x = sep then [[], []] else [[x]]
    | h :: t => if x = sep then [] :: h :: t else (x :: h) :: t

/-- `pd.to_datetime` string parsing restricted to the ISO `YYYY-MM-DD`
form the pipeline produces; the timestamp is the order-preserving integer
encoding `y*10000 + m*100 + d`.  `none` models the parse `ValueError`. -/
def parseDate (s : String) : Option Int :=
  match splitOnChar '-' s.toList with
  | [y, m, d] =>
    if y.length = 4 ∧ m.length = 2 ∧ d.length = 2 ∧
        y.all Char.isDigit ∧ m.all Char.isDigit ∧ d.all Char.isDigit ∧
        1 ≤ digitsToNat m ∧ digitsToNat m ≤ 12 ∧
        1 ≤ digitsToNat d ∧ digitsToNat d ≤ 31 then
      some ((digitsToNat y : Int) * 10000 + (digitsToNat m : Int) * 100 + (digitsToNat d : Int))
    else none
  | _ => none

/-- One cell of `series.astype("float64")`: numbers widen, strings are
parsed with `float()` (raising `ValueError` on failure), datetimes raise
the pandas `TypeError`. -/
def cellToFloat : Value → Except PyErr Value
  | .int n => .ok (.float (Frac.ofInt n))
  | .float q => .ok (.float q)
  | .nan => .ok .nan
  | .str s =>
    match parseFloat s with
    | some q => .ok (.float q)
    | none => .error (.valueError ("could not convert string to float: " ++ s))
  | .date _ => .error (.typeError "Converting from datetime64 to float64 is not supported")

/-- One cell of `series.astype("int64")` (used by `preprocess_data` after
`to_numeric`): floats truncate, missing values raise the pandas
`ValueError`, datetimes raise `TypeError`. -/
def cellToInt : Value → Except PyErr Value
  | .int n => .ok (.int n)
  | .float q => .ok (.int q.trunc)
  | .nan => .error (.valueError "Cannot convert non-finite values (NA or inf) to integer")
  | .str s =>
    match parseFloat s with
    | some q => .ok (.int q.trunc)
    | none => .error (.valueError ("invalid literal for int: " ++ s))
  | .date _ => .error (.typeError "Converting from datetime64 to int64 is not supported")

/-- One cell of `pd.to_datetime` / `astype("datetime64[ns]")`: datetimes
and NaT pass through, numbers are read as epoch offsets (abstracted to the
identity on the integer timestamp encoding, which preserves order — the
only property the code uses), strings parse or raise `ValueError`. -/
def cellToDatetime : Value → Except PyErr Value
  | .date t => .ok (.date t)
  | .nan => .ok .nan
  | .int n => .ok (.date n)
  | .float q => .ok (.date q.trunc)
  | .str s =>
    match parseDate s with
    | some t => .ok (.date t)
    | none => .error (.valueError ("Unknown datetime string format: " ++ s))

/-- Structural, evaluation-friendly `mapM` for `Except`. -/
def mapME (f : α → Except ε β) : List α → Except ε (List β)
  | [] => .ok []
  | a :: as =>
    match f a with
    | .error e => .error e
    | .ok b =>
      match mapME f as with
      | .error e => .error e
      | .ok bs => .ok (b :: bs)

/-- `series.astype(dtype)` over a whole column. -/
def astypeE (vs : List Value) : Dtype → Except PyErr (List Value)
  | .float64 => mapME cellToFloat vs
  | .int64 => mapME cellToInt vs
  | .datetime64 => mapME cellToDatetime vs
  | .object => .ok vs

/-! ## Validator (`GHGDataValidator.validate_dataframe`) -/

/-- The validator's categorized issue report. -/
structure Report where
  missing_columns : List String
  type_errors : List String
  value_errors : List String
  date_errors : List String
deriving DecidableEq, Repr

/-- `self.required_columns` of `GHGDataValidator` in insertion order. -/
def requiredColumns : List (String × Dtype) := [("date", .datetime64), ("emissions", .float64)]

/-- Printed dtype names in the type-error message. -/
def dtypeName : Dtype → String
  | .datetime64 => "datetime64[ns]"
  | .float64 => "float64"
  | .int64 => "int64"
  | .object => "object"

/-- The required-column loop of `validate_dataframe`. -/
def checkMissing (df : DataFrame) : List String :=
  requiredColumns.filterMap fun cd =>
    if df.colNames.contains cd.1 then none
    else some ("Missing required column: " ++ cd.1)

/-- One iteration of the type-coercion loop: compare the column dtype with
the expected one and attempt `df[col] = df[col].astype(expected)`,
recording a type error when the conversion raises `ValueError` (other
exceptions are not caught by the source). -/
def coerceStep (acc : DataFrame × List String) (cd : String × Dtype) :
    Except PyErr (DataFrame × List String) :=
  match getColValues acc.1 cd.1 with
  | none => .ok acc
  | some vs =>
    if dtypeOf vs == cd.2 then .ok acc
    else
      match astypeE vs cd.2 with
      | .ok vs2 => .ok (setColValues acc.1 cd.1 vs2, acc.2)
      | .error (.valueError _) =>
        .ok (acc.1, acc.2 ++ ["Column " ++ cd.1 ++ " could not be converted to " ++ dtypeName cd.2])
      | .error e => .error e

/-- The coercion loop over `self.required_columns` (dict order:
`date`, then `emissions`). -/
def coercePhase (df : DataFrame) : Except PyErr (DataFrame × List String) :=
  match coerceStep (df, []) ("date", .datetime64) with
  | .error e => .error e
  | .ok acc => coerceStep acc ("emissions", .float64)

/-- One cell of the mask `df[col] < bound`: numeric cells compare, NaN
compares false, strings and datetimes raise the pandas `TypeError` for
object-dtype comparisons against a number. -/
def cellLtE (v : Value) (q : Frac) : Except PyErr Bool :=
  match v with
  | .int n => .ok (Frac.blt (Frac.ofInt n) q)
  | .float x => .ok (Frac.blt x q)
  | .nan => .ok false
  | .str _ => .error (.typeError "comparison not supported between str and int")
  | .date _ => .error (.typeError "comparison not supported between datetime and int")

/-- One cell of the mask `df[col] > bound`. -/
def cellGtE (v : Value) (q : Frac) : Except PyErr Bool :=
  match v with
  | .int n => .ok (Frac.blt q (Frac.ofInt n))
  | .float x => .ok (Frac.blt q x)
  | .nan => .ok false
  | .str _ => .error (.typeError "comparison not supported between str and int")
  | .date _ => .error (.typeError "comparison not supported between datetime and int")

/-- The single `value_errors` message the range check can emit
(`rules["min"] = 0`, `rules["max"] = 1e9`, printed by the f-string). -/
def rangeMsg : String := "Column emissions contains values outside valid range [0, 1000000000.0]"

/-- The range-check loop over `self.validation_rules` (only `emissions`):
build the mask `(df[col] < 0) | (df[col] > 1e9)` and report once if any
entry is true.  The mask comparisons are not wrapped in a try block. -/
def rangePhase (df : DataFrame) : Except PyErr (List String) :=
  match getColValues df "emissions" with
  | none => .ok []
  | some vs =>
    match mapME (fun v => cellLtE v (Frac.ofInt 0)) vs with
    | .error e => .error e
    | .ok lt =>
      match mapME (fun v => cellGtE v (Frac.ofInt 1000000000)) vs with
      | .error e => .error e
      | .ok gt =>
        .ok (if (lt.zip gt).any (fun p => p.1 || p.2) then [rangeMsg] else [])

/-- The date block: `df["date"] = pd.to_datetime(df["date"])` inside a
try, then the future-date scan; `ValueError` is caught as an invalid date
format, other exceptions propagate. -/
def datePhase (now : Int) (df : DataFrame) : Except PyErr (DataFrame × List String) :=
  match getColValues df "date" with
  | none => .ok (df, [])
  | some vs =>
    match mapME cellToDatetime vs with
    | .ok vs2 =>
      .ok (setColValues df "date" vs2,
        if vs2.any (fun v => match v with | .date t => decide (now < t) | _ => false)
        then ["Found dates in the future"] else [])
    | .error (.valueError _) => .ok (df, ["Invalid date format"])
    | .error e => .error e

/-- `GHGDataValidator.validate_dataframe`.  Returns the issue report and
the frame as the caller observes it afterwards (the source assigns the
coerced columns back into the caller's frame in place).  `now` stands for
`pd.Timestamp.now()`. -/
def validate_dataframe (now : Int) (df : DataFrame) : Except PyErr (Report × DataFrame) :=
  let missing := checkMissing df
  if missing.isEmpty then
    match coercePhase df with
    | .error e => .error e
    | .ok (df1, te) =>
      match rangePhase df1 with
      | .error e => .error e
      | .ok ve =>
        match datePhase now df1 with
        | .error e => .error e
        | .ok (df2, de) =>
          .ok ({ missing_columns := [], type_errors := te, value_errors := ve, date_errors := de }, df2)
  else
    .ok ({ missing_columns := missing, type_errors := [], value_errors := [], date_errors := [] }, df)

/-! ## Ingestion (`DataIngestion`) -/

/-- `pathlib.Path.suffix` on a final path component: the substring from
the last dot, empty when the name has no dot, starts with its only dot, or
ends in its last dot. -/
def lastDotIdxAux : List Char → Nat → Option Nat → Option Nat
  | [], _, acc => acc
  | c :: rest, i, acc => lastDotIdxAux rest (i + 1) (if c = '.' then some i else acc)

/-- Index of the last dot in a character list, if any. -/
def lastDotIdx (cs : List Char) : Option Nat := lastDotIdxAux cs 0 none

/-- `Path(name).suffix` for a single path component. -/
def pathSuffix (name : String) : String :=
  let cs := name.toList
  match lastDotIdx cs with
  | none => ""
  | some i => if 0 < i ∧ i + 1 < cs.length then ⟨cs.drop i⟩ else ""

/-- The extensions `list_available_files` accepts. -/
def supportedExts : List String := [".csv", ".xlsx", ".xls"]

/-- `DataIngestion.list_available_files`: every directory entry whose
suffix is `.csv`, `.xlsx` or `.xls`.  `entries` models the names produced
by `glob("*")`. -/
def list_available_files (entries : List String) : List String :=
  entries.filter (fun f => supportedExts.contains (pathSuffix f))

/-- Which decoder `read_file` dispatches to, from the file suffix. -/
inductive ReadKind where
  | csv
  | excel
  | unsupported
deriving DecidableEq, Repr

/-- The suffix dispatch at the top of `read_file`. -/
def readDispatch (s : String) : ReadKind :=
  if s == ".csv" then .csv
  else if s == ".xlsx" || s == ".xls" then .excel
  else .unsupported

/-- A raw-data directory: file names mapped to the tables that
`pd.read_csv` / `pd.read_excel` would parse from them. -/
structure FileSystem where
  files : List (String × DataFrame)
deriving DecidableEq, Repr

/-- Look a file up by name. -/
def lookupFile (fs : FileSystem) (name : String) : Option DataFrame :=
  (fs.files.find? (fun p => p.1 == name)).map Prod.snd

/-- Does the validation report contain any issue in any category
(`has_issues = any(issues for issues in validation_issues.values())`)? -/
def hasIssues (r : Report) : Bool :=
  !r.missing_columns.isEmpty || !r.type_errors.isEmpty ||
    !r.value_errors.isEmpty || !r.date_errors.isEmpty

/-- `DataIngestion.read_file`: dispatch on the suffix (unsupported formats
are a hard `ValueError`), parse the file, and when `validate` is set run
the validator and raise `ValueError` if the report has any issue;
otherwise return the (validator-coerced) frame. -/
def read_file (fs : FileSystem) (filename : String) (validate : Bool) (now : Int) :
    Except PyErr DataFrame :=
  match readDispatch (pathSuffix filename) with
  | .unsupported => .error (.valueError ("Unsupported file format: " ++ pathSuffix filename))
  | _ =>
    match lookupFile fs filename with
    | none => .error (.fileNotFound filename)
    | some df =>
      if validate then
        match validate_dataframe now df with
        | .error e => .error e
        | .ok (rep, df2) =>
          if hasIssues rep then .error (.valueError ("Data validation failed for " ++ filename))
          else .ok df2
      else .ok df

/-! ## Remote source pagination -/

/-- Modelled from the spec: the repository has no fetch-all pagination
loop under `src/` — `EPADataSource.fetch_data` issues a single
offset/limit request, and only declarations of the loop survive (the
`batch_size` config entry, the `offset`/`limit` GraphQL query variables,
and the `_cleanup_batch_files` helper for combined batches).  Spec section
4.2: request fixed-size batches from offset 0; a batch strictly smaller
than the requested size, or an empty batch, signals end-of-data; stop and
concatenate all batches in the order received.  `getPage recs off lim`
is the list-backed mocked remote source. -/
def getPage (recs : List α) (off lim : Nat) : List α :=
  (recs.drop off).take lim

/-- Modelled from the spec: the fetch-all loop, with a fuel parameter
bounding the number of iterations (any list-backed source finishes within
`recs.length + 1` pages, as the roundtrip theorem shows). -/
def getAllAux (recs : List α) (b : Nat) : Nat → Nat → List α
  | 0, _ => []
  | fuel + 1, off =>
    let batch := getPage recs off b
    if batch.length < b then batch
    else batch ++ getAllAux recs b fuel (off + b)

/-- Modelled from the spec: `get_all(batch_size)` against a list-backed
remote source (spec assumes a positive batch size). -/
def get_all (recs : List α) (b : Nat) : List α :=
  getAllAux recs b (recs.length + 1) 0

/-! ## Regional analysis (`RegionalAnalysis`) -/

/-- Lexicographic comparison of character lists by code point. -/
def charListLe : List Char → List Char → Bool
  | [], _ => true
  | _ :: _, [] => false
  | a :: as, b :: bs => if a = b then charListLe as bs else decide (a.toNat < b.toNat)

/-- String comparison used to sort group keys. -/
def strLeB (a b : String) : Bool := charListLe a.toList b.toList

/-- Constructor rank, for ordering values of different kinds (group keys
in this pipeline are homogeneous, so only the per-kind cases are hit). -/
def Value.rank : Value → Nat
  | .str _ => 0
  | .int _ => 1
  | .float _ => 1
  | .date _ => 2
  | .nan => 3

/-- Total order on cell values used to sort pandas group keys. -/
def valLe : Value → Value → Bool
  | .str a, .str b => strLeB a b
  | .int a, .int b => decide (a ≤ b)
  | .float a, .float b => Frac.ble a b
  | .int a, .float b => Frac.ble (Frac.ofInt a) b
  | .float a, .int b => Frac.ble a (Frac.ofInt b)
  | .date a, .date b => decide (a ≤ b)
  | a, b => decide (a.rank ≤ b.rank)

/-- Insert into a sorted list (insertion sort step). -/
def insertSorted (le : α → α → Bool) (a : α) : List α → List α
  | [] => [a]
  | b :: rest => if le a b then a :: b :: rest else b :: insertSorted le a rest

/-- Insertion sort by a boolean comparison. -/
def sortByB (le : α → α → Bool) : List α → List α
  | [] => []
  | a :: rest => insertSorted le a (sortByB le rest)

/-- Keep the first occurrence of each element (worker with the set of
elements already emitted). -/
def dedupFirstAux [DecidableEq α] (seen : List α) : List α → List α
  | [] => []
  | a :: rest => if a ∈ seen then dedupFirstAux seen rest else a :: dedupFirstAux (a :: seen) rest

/-- Keep the first occurrence of each element. -/
def dedupFirst [DecidableEq α] (l : List α) : List α := dedupFirstAux [] l

/-- pandas group keys: distinct non-null key values, sorted ascending
(`groupby(...)` drops NaN keys and sorts by default). -/
def groupKeys (ks : List Value) : List Value :=
  sortByB valLe (dedupFirst (ks.filter (fun v => !v.isNan)))

/-- The measure values paired with a given group key. -/
def pairsFor (k : Value) (ks vs : List Value) : List Value :=
  (ks.zip vs).filterMap (fun p => if p.1 = k then some p.2 else none)

/-- Numeric payload of a cell, for aggregation. -/
def Value.toFracNum : Value → Option Frac
  | .int n => some (Frac.ofInt n)
  | .float q => some q
  | _ => none

/-- pandas `sum()` over a group: NaN skipped (non-numeric cells do not
occur in the aggregated columns this pipeline sums). -/
def numSum (vs : List Value) : Frac :=
  vs.foldl (fun a v => match v.toFracNum with | some q => a.add q | none => a) (Frac.ofInt 0)

/-- pandas non-null count (the denominator of `mean()` and the result of
`count()`). -/
def nonNanCount (vs : List Value) : Nat :=
  (vs.filter (fun v => !v.isNan)).length

/-- pandas `nunique()`: number of distinct non-null values. -/
def nuniqueCount (vs : List Value) : Nat :=
  (dedupFirst (vs.filter (fun v => !v.isNan))).length

/-- A pandas Series keyed by group key. -/
abbrev Series := List (Value × Frac)

/-- `df.groupby(ks)[vs].sum()`. -/
def groupSumSeries (ks vs : List Value) : Series :=
  (groupKeys ks).map (fun k => (k, numSum (pairsFor k ks vs)))

/-- `df.groupby(ks)[vs].mean()` (sum over non-null count; a zero count
would be pandas NaN, which no claim exercises). -/
def groupMeanSeries (ks vs : List Value) : Series :=
  (groupKeys ks).map (fun k =>
    (k, (numSum (pairsFor k ks vs)).div (Frac.ofInt (nonNanCount (pairsFor k ks vs)))))

/-- `df.groupby(ks)[vs].nunique()`. -/
def groupNuniqueSeries (ks vs : List Value) : Series :=
  (groupKeys ks).map (fun k => (k, Frac.ofInt (nuniqueCount (pairsFor k ks vs))))

/-- `groupby(ks)[vs].sum() / groupby(ks)[fs].nunique()` (index-aligned,
same keys on both sides). -/
def groupSumPerNuniqueSeries (ks vs fs : List Value) : Series :=
  (groupKeys ks).map (fun k =>
    (k, (numSum (pairsFor k ks vs)).div (Frac.ofInt (nuniqueCount (pairsFor k ks fs)))))

/-- The required columns hard-coded in `county_statistics` (note
`facility_name` and `sector_name`, not the canonical `facility` and
`sector`). -/
def requiredCountyCols : List String := ["county", "emissions", "facility_name", "sector_name"]

/-- The typed-empty result `county_statistics` returns when columns are
missing or the computation raises: all five keys mapped to empty Series. -/
def typedEmptyCounty : List (String × Series) :=
  [("total_emissions", []), ("avg_emissions", []), ("facility_count", []),
    ("sector_count", []), ("emissions_per_facility", [])]

/-- The statistics dictionary built inside the `try` block. -/
def countyCore (df : DataFrame) : Except PyErr (List (String × Series)) :=
  match getColE df "county" with
  | .error e => .error e
  | .ok county =>
    match getColE df "emissions" with
    | .error e => .error e
    | .ok em =>
      match getColE df "facility_name" with
      | .error e => .error e
      | .ok fac =>
        match getColE df "sector_name" with
        | .error e => .error e
        | .ok sec =>
          .ok [("total_emissions", groupSumSeries county em),
               ("avg_emissions", groupMeanSeries county em),
               ("facility_count", groupNuniqueSeries county fac),
               ("sector_count", groupNuniqueSeries county sec),
               ("emissions_per_facility", groupSumPerNuniqueSeries county em fac)]

/-- `RegionalAnalysis.county_statistics`: empty frame returns the bare
empty dict; missing required columns return the typed-empty dict; the
computation runs inside a catch-all `except` that also returns the
typed-empty dict. -/
def county_statistics (df : DataFrame) : List (String × Series) :=
  if dfEmpty df then []
  else
    let missing := requiredCountyCols.filter (fun c => !(df.colNames.contains c))
    if !missing.isEmpty then typedEmptyCounty
    else
      match countyCore df with
      | .ok s => s
      | .error _ => typedEmptyCounty

/-- A county-by-sector pivot of summed emissions with zero fill. -/
def pivotSum (rowKs colKs vals : List Value) : List (Value × List (Value × Frac)) :=
  (groupKeys rowKs).map (fun r =>
    (r, (groupKeys colKs).map (fun c =>
      (c, numSum (((rowKs.zip colKs).zip vals).filterMap
        (fun p => if p.1.1 = r ∧ p.1.2 = c then some p.2 else none))))))

/-- `groupby(sec)[em].agg(["sum", "mean", "count"])` rows. -/
def groupAgg3 (ks vs : List Value) : List (Value × (Frac × Frac × Frac)) :=
  (groupKeys ks).map (fun k =>
    let ps := pairsFor k ks vs
    (k, (numSum ps, (numSum ps).div (Frac.ofInt (nonNanCount ps)),
      Frac.ofInt (nonNanCount ps))))

/-- The three-part result of `industry_analysis`. -/
structure IndustryResult where
  by_sector : List (Value × (Frac × Frac × Frac))
  sector_by_county : List (Value × List (Value × Frac))
  subsector_analysis : List (Value × List (Value × Frac))
deriving DecidableEq, Repr

/-- The typed-empty three-key dict (each component an empty frame). -/
def typedEmptyIndustry : IndustryResult := ⟨[], [], []⟩

/-- The dict construction inside `industry_analysis`'s try block: each
component guarded by column-presence checks, empty frame otherwise. -/
def industryCore (df : DataFrame) : Except PyErr IndustryResult :=
  match
    ((if df.colNames.contains "sector_name" then
      match getColE df "sector_name" with
      | .error e => .error e
      | .ok sec =>
        match getColE df "emissions" with
        | .error e => .error e
        | .ok em => .ok (groupAgg3 sec em)
    else .ok []) : Except PyErr (List (Value × (Frac × Frac × Frac)))) with
  | .error e => .error e
  | .ok bySec =>
    match
      ((if df.colNames.contains "county" && df.colNames.contains "sector_name" then
        match getColE df "county" with
        | .error e => .error e
        | .ok county =>
          match getColE df "sector_name" with
          | .error e => .error e
          | .ok sec =>
            match getColE df "emissions" with
            | .error e => .error e
            | .ok em => .ok (pivotSum county sec em)
      else .ok []) : Except PyErr (List (Value × List (Value × Frac)))) with
    | .error e => .error e
    | .ok secByCounty =>
      match
        ((if df.colNames.contains "sector_name" && df.colNames.contains "subsector_name" then
          match getColE df "sector_name" with
          | .error e => .error e
          | .ok sec =>
            match getColE df "subsector_name" with
            | .error e => .error e
            | .ok sub =>
              match getColE df "emissions" with
              | .error e => .error e
              | .ok em => .ok (pivotSum sec sub em)
        else .ok []) : Except PyErr (List (Value × List (Value × Frac)))) with
      | .error e => .error e
      | .ok subsec => .ok ⟨bySec, secByCounty, subsec⟩

/-- `RegionalAnalysis.industry_analysis`: typed-empty on an empty frame;
otherwise the guarded dict, with a catch-all `except` returning the
typed-empty dict. -/
def industry_analysis (df : DataFrame) : IndustryResult :=
  if dfEmpty df then typedEmptyIndustry
  else
    match industryCore df with
    | .ok r => r
    | .error _ => typedEmptyIndustry

/-- Month period key `to_period("M")` on the timestamp encoding. -/
def tsMonthPeriod (t : Int) : Int := t / 100

/-- `dt.month` on the timestamp encoding. -/
def tsMonth (t : Int) : Int := (t / 100) % 100

/-- `dt.year` on the timestamp encoding. -/
def tsYear (t : Int) : Int := t / 10000

/-- Distinct sorted integer group keys derived from the date column by a
key function (NaT rows are dropped by `groupby`). -/
def intGroupKeys (dates : List Value) (f : Int → Int) : List Int :=
  sortByB (fun a b => decide (a ≤ b))
    (dedupFirst (dates.filterMap (fun v => match v with | .date t => some (f t) | _ => none)))

/-- The measure values in the group of rows whose date maps to key `k`. -/
def intPairsFor (k : Int) (dates vs : List Value) (f : Int → Int) : List Value :=
  (dates.zip vs).filterMap
    (fun p => match p.1 with
      | .date t => if f t = k then some p.2 else none
      | _ => none)

/-- `groupby(f(date))[em].sum()`. -/
def intGroupSum (dates vs : List Value) (f : Int → Int) : List (Int × Frac) :=
  (intGroupKeys dates f).map (fun k => (k, numSum (intPairsFor k dates vs f)))

/-- `groupby(f(date))[em].mean()`. -/
def intGroupMean (dates vs : List Value) (f : Int → Int) : List (Int × Frac) :=
  (intGroupKeys dates f).map (fun k =>
    (k, (numSum (intPairsFor k dates vs f)).div
      (Frac.ofInt (nonNanCount (intPairsFor k dates vs f)))))

/-- The three temporal views. -/
structure TemporalResult where
  monthly_trend : List (Int × Frac)
  seasonal_pattern : List (Int × Frac)
  year_over_year : List (Int × Frac)
deriving DecidableEq, Repr

/-- `RegionalAnalysis.temporal_analysis`: no guards and no try block —
`self.df["date"]` raises `KeyError` when the column is absent, the `.dt`
accessor raises when the column is not datetimelike, and the `["emissions"]`
selection raises `KeyError` when that column is absent. -/
def temporal_analysis (df : DataFrame) : Except PyErr TemporalResult :=
  match getColE df "date" with
  | .error e => .error e
  | .ok dates =>
    if dtypeOf dates != .datetime64 then
      .error (.attributeError "Can only use .dt accessor with datetimelike values")
    else
      match getColE df "emissions" with
      | .error e => .error e
      | .ok em =>
        .ok ⟨intGroupSum dates em tsMonthPeriod,
             intGroupMean dates em tsMonth,
             intGroupSum dates em tsYear⟩

/-! ## Remote source preprocessing (`EPADataSource.preprocess_data`) -/

/-- The rename map applied when the old label exists and the new one does
not (`co2e_emission` to `emissions`, `sector_name` to `industry`,
`facility_name` to `facility`). -/
def renameMap : List (String × String) :=
  [("co2e_emission", "emissions"), ("sector_name", "industry"), ("facility_name", "facility")]

/-- `df.rename(columns={old: new})` guarded as in the source. -/
def renameOne (df : DataFrame) (old new : String) : DataFrame :=
  if df.colNames.contains old && !(df.colNames.contains new) then
    ⟨df.cols.map (fun p => if p.1 = old then (new, p.2) else p)⟩
  else df

/-- The rename loop. -/
def renameStage (df : DataFrame) : DataFrame :=
  renameMap.foldl (fun d pr => renameOne d pr.1 pr.2) df

/-- One cell of `pd.to_numeric(col, errors="coerce")`: unparseable cells
become NaN instead of raising; integral strings parse to integers. -/
def toNumericCoerceCell : Value → Value
  | .int n => .int n
  | .float q => .float q
  | .nan => .nan
  | .str s =>
    match parseFloat s with
    | some q => if q.den = 1 then .int q.num else .float q
    | none => .nan
  | .date _ => .nan

/-- The numeric columns `preprocess_data` coerces, with their dtypes. -/
def numericCols : List (String × Dtype) :=
  [("year", .int64), ("emissions", .float64), ("latitude", .float64), ("longitude", .float64)]

/-- One iteration of the numeric-conversion loop:
`df[col] = pd.to_numeric(df[col], errors="coerce")` followed by
`df[col] = df[col].astype(dtype)` (the `astype` is not inside a try and
its exceptions propagate). -/
def numericStep (df : DataFrame) (cd : String × Dtype) : Except PyErr DataFrame :=
  match getColValues df cd.1 with
  | none => .ok df
  | some vs =>
    let vs1 := vs.map toNumericCoerceCell
    match astypeE vs1 cd.2 with
    | .error e => .error e
    | .ok vs2 => .ok (setColValues (setColValues df cd.1 vs1) cd.1 vs2)

/-- Structural `foldM` over `Except` for the conversion loop. -/
def foldME (f : β → α → Except ε β) : β → List α → Except ε β
  | b, [] => .ok b
  | b, a :: as =>
    match f b a with
    | .error e => .error e
    | .ok b2 => foldME f b2 as

/-- The numeric-conversion loop of `preprocess_data`. -/
def numericStage (df : DataFrame) : Except PyErr DataFrame :=
  foldME numericStep df numericCols

/-- `df["sector_name"] + " - " + df["subsector_name"]` cellwise (string
concatenation; the pipeline only exercises it on strings). -/
def combineSector : Value → Value → Value
  | .str x, .str y => .str (x ++ " - " ++ y)
  | _, _ => .nan

/-- The combined-sector stage, guarded on both columns being present. -/
def sectorFullStage (df : DataFrame) : DataFrame :=
  if df.colNames.contains "sector_name" && df.colNames.contains "subsector_name" then
    setColValues df "sector_full"
      (List.zipWith combineSector ((getColValues df "sector_name").getD [])
        ((getColValues df "subsector_name").getD []))
  else df

/-- One cell of `pd.to_datetime(df["year"].astype(str), format="%Y")`:
an integer year renders as its digits and parses to January 1 of that
year; anything else renders to a string `%Y` rejects, raising
`ValueError`. -/
def yearToDateE : Value → Except PyErr Value
  | .int n => .ok (.date (n * 10000 + 101))
  | .str s =>
    if s.toList ≠ [] ∧ s.toList.all Char.isDigit then
      .ok (.date ((digitsToNat s.toList : Int) * 10000 + 101))
    else .error (.valueError ("time data " ++ s ++ " does not match format"))
  | .float _ => .error (.valueError "time data does not match format")
  | .nan => .error (.valueError "time data nan does not match format")
  | .date _ => .error (.valueError "time data does not match format")

/-- The derived-date stage: adds a `date` column from `year` when `date`
is absent. -/
def dateStage (df : DataFrame) : Except PyErr DataFrame :=
  if df.colNames.contains "year" && !(df.colNames.contains "date") then
    match mapME yearToDateE ((getColValues df "year").getD []) with
    | .error e => .error e
    | .ok ds => .ok (setColValues df "date" ds)
  else .ok df

/-- Row `i` of the frame materialized as a tuple of cells. -/
def rowTuple (df : DataFrame) (i : Nat) : List Value :=
  df.cols.map (fun p => p.2.getD i .nan)

/-- Rebuild the frame keeping the rows at the given indices, in order. -/
def selectRows (df : DataFrame) (idxs : List Nat) : DataFrame :=
  ⟨df.cols.map (fun p => (p.1, idxs.filterMap p.2.get?))⟩

/-- `df.drop_duplicates()`: the indices of first occurrences of each
distinct row. -/
def dedupIdxs (df : DataFrame) : List Nat :=
  (List.range (rowCount df)).filter
    (fun i => (List.range i).all (fun j => !(decide (rowTuple df j = rowTuple df i))))

/-- The duplicate-removal stage. -/
def dedupStage (df : DataFrame) : DataFrame :=
  selectRows df (dedupIdxs df)

/-- Row comparison for `sort_values(["year", "emissions"],
ascending=[False, False])`: primary key `year` descending, tie broken by
`emissions` descending. -/
def rowSortLe (ys es : List Value) (i j : Nat) : Bool :=
  if ys.getD i .nan = ys.getD j .nan then valLe (es.getD j .nan) (es.getD i .nan)
  else valLe (ys.getD j .nan) (ys.getD i .nan)

/-- The sort stage, guarded on `year` and `emissions` being present. -/
def sortStage (df : DataFrame) : DataFrame :=
  if df.colNames.contains "year" && df.colNames.contains "emissions" then
    selectRows df
      (sortByB (rowSortLe ((getColValues df "year").getD []) ((getColValues df "emissions").getD []))
        (List.range (rowCount df)))
  else df

/-- `EPADataSource.preprocess_data`: an empty frame passes through;
otherwise rename, numeric coercion, combined-sector derivation, date
derivation from `year`, exact-duplicate removal, and the
year/emissions descending sort.  No step touches the `county` column. -/
def preprocess_data (df : DataFrame) : Except PyErr DataFrame :=
  if dfEmpty df then .ok df
  else
    match numericStage (renameStage df) with
    | .error e => .error e
    | .ok d2 =>
      match dateStage (sectorFullStage d2) with
      | .error e => .error e
      | .ok d4 => .ok (sortStage (dedupStage d4))

/-! ## Predicates and concrete frames used by the theorems -/

/-- Is the cell numeric or missing (no strings/datetimes)?  The range
mask only evaluates without raising on such cells. -/
def numOrNan : Value → Bool
  | .int _ => true
  | .float _ => true
  | .nan => true
  | _ => false

/-- The value `astype("float64")` gives a numeric-or-missing cell. -/
def numCoerce : Value → Value
  | .int n => .float (Frac.ofInt n)
  | v => v

/-- Total version of the `<` mask cell on numeric-or-missing cells. -/
def cellLtB (v : Value) (q : Frac) : Bool :=
  match v with
  | .int n => Frac.blt (Frac.ofInt n) q
  | .float x => Frac.blt x q
  | _ => false

/-- Total version of the `>` mask cell on numeric-or-missing cells. -/
def cellGtB (v : Value) (q : Frac) : Bool :=
  match v with
  | .int n => Frac.blt q (Frac.ofInt n)
  | .float x => Frac.blt q x
  | _ => false

/-- Is the cell a numeric value outside the validator range `[0, 1e9]`?
(NaN compares false on both sides, as in pandas.) -/
def cellBad (v : Value) : Bool :=
  cellLtB v (Frac.ofInt 0) || cellGtB v (Frac.ofInt 1000000000)

/-- The empty table: zero rows, no columns. -/
def emptyDf : DataFrame := ⟨[]⟩

/-- A frame whose date column needs coercion (validation succeeds and the
coercion persists in the caller's frame). -/
def df8 : DataFrame := ⟨[("date", [.str "2020-01-01"]), ("emissions", [.int 5])]⟩

/-- `df8` as the caller observes it after validation: both required
columns coerced in place. -/
def df8coerced : DataFrame := ⟨[("date", [.date 20200101]), ("emissions", [.float ⟨5, 1⟩])]⟩

/-- The emissions fixture of the repository test
`test_validate_invalid_emissions`: valid dates with mixed numeric/string
emissions `[-1, 2e9, "invalid"]`. -/
def dfMixed : DataFrame := ⟨[("date", [.date 20200131, .date 20200229, .date 20200331]),
  ("emissions", [.int (-1), .float (Frac.ofInt 2000000000), .str "invalid"])]⟩

/-- A well-typed frame whose only problem is one out-of-range emissions
value. -/
def dfRange : DataFrame := ⟨[("date", [.date 20200101]), ("emissions", [.float ⟨-5, 1⟩])]⟩

/-- A frame missing the `date` column. -/
def dfW1 : DataFrame := ⟨[("emissions", [.int 1])]⟩

/-- The spec scenario table for county statistics, with the spec's own
field name `facility`. -/
def dfC5 : DataFrame := ⟨[
  ("county", [.str "Bergen", .str "Bergen", .str "Essex"]),
  ("emissions", [.int 100, .int 50, .int 200]),
  ("facility", [.str "A", .str "B", .str "C"])]⟩

/-- The spec scenario table renamed to the columns `county_statistics`
actually requires (`facility_name`, plus a `sector_name` column). -/
def dfC5amended : DataFrame := ⟨[
  ("county", [.str "Bergen", .str "Bergen", .str "Essex"]),
  ("emissions", [.int 100, .int 50, .int 200]),
  ("facility_name", [.str "A", .str "B", .str "C"]),
  ("sector_name", [.str "Power", .str "Power", .str "Waste"])]⟩

/-- A non-empty frame missing the grouping columns `county_statistics`
requires. -/
def dfMissingCols : DataFrame := ⟨[("county", [.str "X"]), ("emissions", [.int 1])]⟩

/-- A raw EPA row with a lower-case, padded county value. -/
def dfC9 : DataFrame := ⟨[
  ("county", [.str " bergen county "]),
  ("co2e_emission", [.str "100"]),
  ("year", [.int 2020])]⟩

/-- `preprocess_data dfC9`: renames, coercions and the derived date, with
the county value untouched. -/
def dfC9out : DataFrame := ⟨[
  ("county", [.str " bergen county "]),
  ("emissions", [.float ⟨100, 1⟩]),
  ("year", [.int 2020]),
  ("date", [.date 20200101])]⟩

/-- County values of a frame (empty when the column is absent). -/
def countyValuesOf (df : DataFrame) : List Value :=
  (getColValues df "county").getD []

/-- A directory holding one CSV whose table has a single out-of-range
emissions value. -/
def fsB : FileSystem :=
  ⟨[("bad.csv", dfRange)]⟩

/-- The report `validate_dataframe` produces for `dfRange`: a lone range
issue. -/
def rangeOnlyReport : Report := ⟨[], [], [rangeMsg], []⟩

/-! ## Helper lemmas -/

lemma findVal_setColAux (c cq : String) (vs : List Value) (h : cq ≠ c) :
    ∀ cols : List (String × List Value),
      (setColAux c vs cols).find? (fun p => p.1 == cq) = cols.find? (fun p => p.1 == cq) := by
  intro cols
  induction cols with
  | nil =>
    simp only [setColAux, List.find?]
    have : (c == cq) = false := by
      simp [beq_iff_eq]
      exact fun hc => h (hc.symm)
    simp [this]
  | cons p rest ih =>
    obtain ⟨n, ws⟩ := p
    by_cases hn : n = c
    · subst hn
      have : (n == cq) = false := by
        simp [beq_iff_eq]
        exact fun hc => h (hc.symm)
      simp [setColAux, List.find?, this]
    · simp only [setColAux, if_neg hn]
      by_cases hq : (n == cq) = true
      · simp [List.find?, hq]
      · simp only [List.find?]
        rw [Bool.not_eq_true] at hq
        simp [hq, ih]

lemma getCol_setCol_other (df : DataFrame) (c cq : String) (vs : List Value) (h : cq ≠ c) :
    getColValues (setColValues df c vs) cq = getColValues df cq := by
  simp [getColValues, setColValues, findVal_setColAux c cq vs h]

lemma findVal_setColAux_same (c : String) (vs : List Value) :
    ∀ cols : List (String × List Value),
      ((setColAux c vs cols).find? (fun p => p.1 == c)).map Prod.snd = some vs := by
  intro cols
  induction cols with
  | nil => simp [setColAux, List.find?]
  | cons p rest ih =>
    obtain ⟨n, ws⟩ := p
    by_cases hn : n = c
    · subst hn
      simp [setColAux, List.find?]
    · have : (n == c) = false := by simp [beq_iff_eq, hn]
      simp [setColAux, if_neg hn, List.find?, this, ih]

lemma getCol_setCol_same (df : DataFrame) (c : String) (vs : List Value) :
    getColValues (setColValues df c vs) c = some vs := by
  simp [getColValues, setColValues, findVal_setColAux_same]

lemma contains_iff_mem_str {l : List String} {c : String} : l.contains c = true ↔ c ∈ l := by
  simp [List.contains, List.elem_iff]

lemma colNames_setColAux (c : String) (vs : List Value) :
    ∀ cols : List (String × List Value), c ∈ cols.map Prod.fst →
      (setColAux c vs cols).map Prod.fst = cols.map Prod.fst := by
  intro cols
  induction cols with
  | nil => simp
  | cons p rest ih =>
    obtain ⟨n, ws⟩ := p
    intro hc
    by_cases hn : n = c
    · subst hn
      simp [setColAux]
    · have : c ∈ rest.map Prod.fst := by
        rcases List.mem_cons.mp hc with h1 | h2
        · exact absurd h1.symm hn
        · exact h2
      simp [setColAux, if_neg hn, ih this]

lemma colNames_setCol (df : DataFrame) (c : String) (vs : List Value)
    (h : c ∈ df.colNames) :
    (setColValues df c vs).colNames = df.colNames := by
  simpa [setColValues, DataFrame.colNames] using colNames_setColAux c vs df.cols h

lemma mem_of_find?_some {cols : List (String × List Value)} {c : String}
    {p : String × List Value} (h : cols.find? (fun q => q.1 == c) = some p) :
    c ∈ cols.map Prod.fst := by
  induction cols with
  | nil => simp [List.find?] at h
  | cons q rest ih =>
    by_cases hq : (q.1 == c) = true
    · have : q.1 = c := by simpa [beq_iff_eq] using hq
      simp [this]
    · rw [Bool.not_eq_true] at hq
      simp only [List.find?, hq] at h
      simp [ih h]

lemma getCol_mem_colNames {df : DataFrame} {c : String} {vs : List Value}
    (h : getColValues df c = some vs) : c ∈ df.colNames := by
  simp only [getColValues, Option.map_eq_some'] at h
  obtain ⟨p, hp, _⟩ := h
  exact mem_of_find?_some hp

lemma getCol_some_of_mem_aux {c : String} :
    ∀ cols : List (String × List Value), c ∈ cols.map Prod.fst →
      ∃ vs, ((cols.find? (fun p => p.1 == c)).map Prod.snd) = some vs := by
  intro cols
  induction cols with
  | nil => simp
  | cons q rest ih =>
    intro h
    by_cases hq : q.1 = c
    · refine ⟨q.2, ?_⟩
      simp [List.find?, hq]
    · have hm : c ∈ rest.map Prod.fst := by
        rcases List.mem_cons.mp h with h1 | h2
        · exact absurd h1.symm hq
        · exact h2
      have hb : (q.1 == c) = false := by simp [beq_iff_eq, hq]
      simpa [List.find?, hb] using ih hm

lemma getCol_some_of_mem {df : DataFrame} {c : String} (h : c ∈ df.colNames) :
    ∃ vs, getColValues df c = some vs :=
  getCol_some_of_mem_aux df.cols h

lemma mapME_ok_length (f : α → Except ε β) :
    ∀ l r, mapME f l = .ok r → r.length = l.length := by
  intro l
  induction l with
  | nil =>
    intro r h
    simp [mapME] at h
    simp [← h]
  | cons a as ih =>
    intro r h
    simp only [mapME] at h
    cases hf : f a with
    | error e => simp [hf] at h
    | ok b =>
      rw [hf] at h
      cases hrec : mapME f as with
      | error e => simp [hrec] at h
      | ok bs =>
        rw [hrec] at h
        simp at h
        subst h
        simp [ih bs hrec]

lemma mapME_congr_ok (f : α → Except ε β) (g : α → β) :
    ∀ l, (∀ a ∈ l, f a = .ok (g a)) → mapME f l = .ok (l.map g) := by
  intro l
  induction l with
  | nil => intro _; simp [mapME]
  | cons a as ih =>
    intro h
    have ha := h a (by simp)
    have has : ∀ b ∈ as, f b = .ok (g b) := fun b hb => h b (by simp [hb])
    simp [mapME, ha, ih has]

lemma getAllAux_eq_drop (recs : List α) (b : Nat) (hb : 0 < b) :
    ∀ fuel off, recs.length - off ≤ fuel * b → getAllAux recs b fuel off = recs.drop off := by
  intro fuel
  induction fuel with
  | zero =>
    intro off h
    simp only [Nat.zero_mul, Nat.le_zero, Nat.sub_eq_zero_iff_le] at h
    simp [getAllAux, (List.drop_eq_nil_of_le h).symm]
  | succ fuel ih =>
    intro off h
    have hmul : recs.length - off ≤ fuel * b + b := by
      rw [Nat.succ_mul] at h
      exact h
    simp only [getAllAux, getPage]
    have hlt : ((recs.drop off).take b).length = min b (recs.length - off) := by
      simp [List.length_take, List.length_drop]
    by_cases hcase : recs.length - off < b
    · have hsmall : ((recs.drop off).take b).length < b := by omega
      simp only [hsmall, if_pos]
      apply List.take_of_length_le
      simp only [List.length_drop]
      omega
    · have hfull : ¬ ((recs.drop off).take b).length < b := by omega
      simp only [hfull, if_neg, Bool.false_eq_true, not_false_eq_true]
      rw [ih (off + b) (by omega)]
      have hdd : recs.drop (off + b) = (recs.drop off).drop b := by
        rw [List.drop_drop, Nat.add_comm]
      rw [hdd, List.take_append_drop]

/-- C3: a remote source yielding exactly N full pages of size B and a
final partial page of r < B records round-trips through the fetch-all
loop: `get_all` returns exactly the N*B + r source records, with no
duplicates and in the original order (it returns the source list itself),
stopping at the first empty or short batch. -/
theorem get_all_pagination_roundtrip (recs : List α) (N B r : Nat)
    (hB : 0 < B) (hr : r < B) (hlen : recs.length = N * B + r) :
    get_all recs B = recs ∧ (get_all recs B).length = N * B + r := by
  have h1 : recs.length + 1 ≤ (recs.length + 1) * B := Nat.le_mul_of_pos_right _ hB
  have hfuel : recs.length - 0 ≤ (recs.length + 1) * B := by omega
  have hmain := getAllAux_eq_drop recs B hB (recs.length + 1) 0 hfuel
  refine ⟨by simpa [get_all] using hmain, ?_⟩
  simp only [get_all, hmain, List.drop_zero]
  exact hlen

/-- Witness for C3 at two full pages of size two and a final partial page
of one record. -/
theorem get_all_pagination_roundtrip_witness :
    0 < 2 ∧ 1 < 2 ∧ ([0, 1, 2, 3, 4] : List Nat).length = 2 * 2 + 1 ∧
      (get_all [0, 1, 2, 3, 4] 2 = [0, 1, 2, 3, 4] ∧
        (get_all ([0, 1, 2, 3, 4] : List Nat) 2).length = 2 * 2 + 1) :=
  ⟨by decide, by decide, by decide,
    get_all_pagination_roundtrip [0, 1, 2, 3, 4] 2 2 1 (by decide) (by decide) (by decide)⟩

/-- C10: every filename returned by `list_available_files` has suffix
`.csv`, `.xlsx` or `.xls`, so `read_file` can never reach the unsupported
format branch for it. -/
theorem listed_files_always_supported (entries : List String) (f : String)
    (h : f ∈ list_available_files entries) :
    supportedExts.contains (pathSuffix f) = true ∧
      readDispatch (pathSuffix f) ≠ ReadKind.unsupported := by
  have hc : supportedExts.contains (pathSuffix f) = true := (List.mem_filter.mp h).2
  refine ⟨hc, ?_⟩
  have hmem : pathSuffix f = ".csv" ∨ pathSuffix f = ".xlsx" ∨ pathSuffix f = ".xls" := by
    have := contains_iff_mem_str.mp hc
    simpa [supportedExts] using this
  rcases hmem with h1 | h1 | h1 <;> simp [readDispatch, h1]

/-- Witness for C10 at a directory listing with a supported and an
unsupported entry. -/
theorem listed_files_always_supported_witness :
    "a.csv" ∈ list_available_files ["a.csv", "b.txt"] ∧
      (supportedExts.contains (pathSuffix "a.csv") = true ∧
        readDispatch (pathSuffix "a.csv") ≠ ReadKind.unsupported) :=
  ⟨by decide, listed_files_always_supported ["a.csv", "b.txt"] "a.csv" (by decide)⟩

/-- C1: when a required column (`date` or `emissions`) is missing,
`validate_dataframe` returns immediately with each missing column named
under `missing_columns`, the other three categories empty, and the frame
untouched (the later checks are skipped). -/
theorem validate_missing_columns_short_circuit (now : Int) (df : DataFrame)
    (h : df.colNames.contains "date" = false ∨ df.colNames.contains "emissions" = false) :
    ∃ ms, validate_dataframe now df = .ok (⟨ms, [], [], []⟩, df) ∧
      (df.colNames.contains "date" = false → "Missing required column: date" ∈ ms) ∧
      (df.colNames.contains "emissions" = false → "Missing required column: emissions" ∈ ms) := by
  have toNotMem : ∀ c : String, df.colNames.contains c = false → c ∉ df.colNames := by
    intro c hc hm
    rw [contains_iff_mem_str.mpr hm] at hc
    cases hc
  rcases h with h | h
  · have hd := toNotMem _ h
    by_cases h2 : df.colNames.contains "emissions" = true
    · have he := contains_iff_mem_str.mp h2
      refine ⟨["Missing required column: date"], ?_, fun _ => by simp,
        fun hf => absurd (hf ▸ h2) (by simp)⟩
      simp [validate_dataframe, checkMissing, requiredColumns, hd, he]
    · rw [Bool.not_eq_true] at h2
      have he := toNotMem _ h2
      refine ⟨["Missing required column: date", "Missing required column: emissions"],
        ?_, fun _ => by simp, fun _ => by simp⟩
      simp [validate_dataframe, checkMissing, requiredColumns, hd, he]
  · have he := toNotMem _ h
    by_cases h1 : df.colNames.contains "date" = true
    · have hd := contains_iff_mem_str.mp h1
      refine ⟨["Missing required column: emissions"], ?_,
        fun hf => absurd (hf ▸ h1) (by simp), fun _ => by simp⟩
      simp [validate_dataframe, checkMissing, requiredColumns, hd, he]
    · rw [Bool.not_eq_true] at h1
      have hd := toNotMem _ h1
      refine ⟨["Missing required column: date", "Missing required column: emissions"],
        ?_, fun _ => by simp, fun _ => by simp⟩
      simp [validate_dataframe, checkMissing, requiredColumns, hd, he]

/-- Witness for C1 at a frame holding only an emissions column. -/
theorem validate_missing_columns_short_circuit_witness :
    (dfW1.colNames.contains "date" = false ∨ dfW1.colNames.contains "emissions" = false) ∧
      ∃ ms, validate_dataframe 0 dfW1 = .ok (⟨ms, [], [], []⟩, dfW1) ∧
        (dfW1.colNames.contains "date" = false → "Missing required column: date" ∈ ms) ∧
        (dfW1.colNames.contains "emissions" = false → "Missing required column: emissions" ∈ ms) :=
  ⟨by decide, validate_missing_columns_short_circuit 0 dfW1 (Or.inl (by decide))⟩

/-- C2 counterexample: a table whose validation report contains only a
range (value_errors) issue and no missing-column issue still makes the
single-file read raise the data-quality `ValueError` — there is no
warning-level path. -/
theorem read_file_range_only_raises_cex :
    validate_dataframe 20260101 dfRange = .ok (rangeOnlyReport, dfRange) ∧
      read_file fsB "bad.csv" true 20260101 =
        .error (.valueError "Data validation failed for bad.csv") := ⟨rfl, rfl⟩

/-- C2 amended: `read_file` raises the data-quality error whenever the
validation report contains an issue in any category — including
range-only reports — and returns the table only when the report is empty
in every category. -/
theorem read_file_raises_on_any_issue (fs : FileSystem) (name : String) (df : DataFrame)
    (now : Int) (rep : Report) (df2 : DataFrame)
    (hk : readDispatch (pathSuffix name) ≠ ReadKind.unsupported)
    (hl : lookupFile fs name = some df)
    (hv : validate_dataframe now df = .ok (rep, df2)) :
    read_file fs name true now =
      (if hasIssues rep then .error (.valueError ("Data validation failed for " ++ name))
       else .ok df2) := by
  unfold read_file
  cases hd : readDispatch (pathSuffix name) with
  | unsupported => exact absurd hd hk
  | csv => simp [hd, hl, hv]
  | excel => simp [hd, hl, hv]

/-- Witness for C2 at the CSV directory with a range-only issue. -/
theorem read_file_raises_on_any_issue_witness :
    readDispatch (pathSuffix "bad.csv") ≠ ReadKind.unsupported ∧
      lookupFile fsB "bad.csv" = some dfRange ∧
      validate_dataframe 20260101 dfRange = .ok (rangeOnlyReport, dfRange) ∧
      read_file fsB "bad.csv" true 20260101 =
        (if hasIssues rangeOnlyReport then
          .error (.valueError ("Data validation failed for " ++ "bad.csv"))
         else .ok dfRange) :=
  ⟨by decide, rfl, rfl,
    read_file_raises_on_any_issue fsB "bad.csv" dfRange 20260101 rangeOnlyReport dfRange
      (by decide) rfl rfl⟩

/-- C4 counterexample: on the empty table `temporal_analysis` raises the
`KeyError` for the absent `date` column instead of returning a
typed-empty result. -/
theorem temporal_empty_raises_cex :
    temporal_analysis emptyDf = .error (.keyError "date") := rfl

/-- C4 amended: on the empty table `county_statistics` returns the bare
empty dict and `industry_analysis` the typed-empty three-key result,
neither raising, but `temporal_analysis` raises a key error for `date`;
for a non-empty table missing a grouping or emissions column,
`county_statistics` returns its typed-empty result instead of raising. -/
theorem regional_empty_and_missing_behavior :
    county_statistics emptyDf = [] ∧
      industry_analysis emptyDf = typedEmptyIndustry ∧
      temporal_analysis emptyDf = .error (.keyError "date") ∧
      ∀ df : DataFrame, dfEmpty df = false →
        (requiredCountyCols.filter (fun c => !(df.colNames.contains c))) ≠ [] →
        county_statistics df = typedEmptyCounty := by
  refine ⟨rfl, rfl, rfl, ?_⟩
  intro df h1 h2
  have hne : ((requiredCountyCols.filter (fun c => !(df.colNames.contains c))).isEmpty) = false := by
    by_contra hcon
    rw [Bool.not_eq_false] at hcon
    exact h2 (by simpa [List.isEmpty_iff] using hcon)
  unfold county_statistics
  rw [h1]
  simp only [Bool.false_eq_true, if_false, hne, Bool.not_false, if_true]

/-- Witness for C4 at a non-empty frame missing `facility_name` and
`sector_name`. -/
theorem regional_empty_and_missing_behavior_witness :
    dfEmpty dfMissingCols = false ∧
      (requiredCountyCols.filter (fun c => !(dfMissingCols.colNames.contains c))) ≠ [] ∧
      county_statistics dfMissingCols = typedEmptyCounty :=
  ⟨by decide, by decide,
    regional_empty_and_missing_behavior.2.2.2 dfMissingCols (by decide) (by decide)⟩

/-- C5 counterexample: on the spec scenario table (columns `county`,
`emissions`, `facility`) `county_statistics` returns the typed-empty
dict — `total_emissions` and `facility_count` are empty, not the claimed
Bergen/Essex aggregates, because the code requires `facility_name` and
`sector_name` columns. -/
theorem county_statistics_bergen_essex_cex :
    county_statistics dfC5 = typedEmptyCounty ∧
      (county_statistics dfC5).lookup "total_emissions" = some [] ∧
      (county_statistics dfC5).lookup "facility_count" = some [] := ⟨rfl, rfl, rfl⟩

/-- C5 amended: on the scenario table carrying the column names the code
requires (`facility_name`, plus a `sector_name` column),
`county_statistics` returns `total_emissions = Bergen 150, Essex 200` and
`facility_count = Bergen 2, Essex 1`. -/
theorem county_statistics_bergen_essex_amended :
    (county_statistics dfC5amended).lookup "total_emissions" =
        some [(.str "Bergen", ⟨150, 1⟩), (.str "Essex", ⟨200, 1⟩)] ∧
      (county_statistics dfC5amended).lookup "facility_count" =
        some [(.str "Bergen", ⟨2, 1⟩), (.str "Essex", ⟨1, 1⟩)] := ⟨rfl, rfl⟩

/-- C6: the repository test fixture with emissions `[-1, 2e9, "invalid"]`
makes `validate_dataframe` raise an uncaught `TypeError` from the range
mask comparison on the partially coerced object column — data-quality
problems are not always reported via the categorized lists. -/
theorem validate_mixed_emissions_raises_typeerror :
    validate_dataframe 20260101 dfMixed =
      .error (.typeError "comparison not supported between str and int") := rfl

/-- C8 counterexample: validation persistently coerces the caller's
frame — after the call the observed table differs from the input (a
string date becomes a timestamp and an integer emission becomes a
float). -/
theorem validate_mutates_input_cex :
    validate_dataframe 20260101 df8 = .ok (⟨[], [], [], []⟩, df8coerced) ∧
      df8coerced ≠ df8 := ⟨rfl, by decide⟩

lemma cellToFloat_num {v : Value} (h : numOrNan v = true) :
    cellToFloat v = .ok (numCoerce v) := by
  cases v <;> simp_all [numOrNan, cellToFloat, numCoerce]

lemma numOrNan_numCoerce {v : Value} (h : numOrNan v = true) :
    numOrNan (numCoerce v) = true := by
  cases v <;> simp_all [numOrNan, numCoerce]

lemma cellBad_numCoerce (v : Value) : cellBad (numCoerce v) = cellBad v := by
  cases v <;> rfl

lemma cellLtE_num {v : Value} (q : Frac) (h : numOrNan v = true) :
    cellLtE v q = .ok (cellLtB v q) := by
  cases v <;> simp_all [numOrNan, cellLtE, cellLtB]

lemma cellGtE_num {v : Value} (q : Frac) (h : numOrNan v = true) :
    cellGtE v q = .ok (cellGtB v q) := by
  cases v <;> simp_all [numOrNan, cellGtE, cellGtB]

lemma cellToDatetime_ok_or_valueError (v : Value) :
    (∃ w, cellToDatetime v = .ok w) ∨ ∃ m, cellToDatetime v = .error (.valueError m) := by
  cases v with
  | str s =>
    cases hp : parseDate s with
    | some t => exact Or.inl ⟨.date t, by simp [cellToDatetime, hp]⟩
    | none =>
      exact Or.inr ⟨"Unknown datetime string format: " ++ s, by simp [cellToDatetime, hp]⟩
  | int n => exact Or.inl ⟨_, rfl⟩
  | float q => exact Or.inl ⟨_, rfl⟩
  | date t => exact Or.inl ⟨_, rfl⟩
  | nan => exact Or.inl ⟨_, rfl⟩

lemma mapME_datetime_ok_or_valueError :
    ∀ vs : List Value, (∃ ws, mapME cellToDatetime vs = .ok ws) ∨
      ∃ m, mapME cellToDatetime vs = .error (.valueError m) := by
  intro vs
  induction vs with
  | nil => exact Or.inl ⟨[], rfl⟩
  | cons v rest ih =>
    rcases cellToDatetime_ok_or_valueError v with ⟨w, hw⟩ | ⟨m, hm⟩
    · rcases ih with ⟨ws, hws⟩ | ⟨m, hm⟩
      · exact Or.inl ⟨w :: ws, by simp [mapME, hw, hws]⟩
      · exact Or.inr ⟨m, by simp [mapME, hw, hm]⟩
    · exact Or.inr ⟨m, by simp [mapME, hm]⟩

lemma anyCongrMem {f g : α → Bool} :
    ∀ l : List α, (∀ a ∈ l, f a = g a) → l.any f = l.any g := by
  intro l
  induction l with
  | nil => intro _; rfl
  | cons a as ih =>
    intro h
    simp only [List.any_cons, h a (by simp), ih (fun b hb => h b (by simp [hb]))]

lemma coerceStep_date_ok (df : DataFrame) (te : List String) :
    ∃ df1 te1, coerceStep (df, te) ("date", .datetime64) = .ok (df1, te1) ∧
      ∀ c, c ≠ "date" → getColValues df1 c = getColValues df c := by
  unfold coerceStep
  cases hg : getColValues df "date" with
  | none => exact ⟨df, te, rfl, fun _ _ => rfl⟩
  | some vs =>
    by_cases hdt : (dtypeOf vs == Dtype.datetime64) = true
    · exact ⟨df, te, by simp [hdt], fun _ _ => rfl⟩
    · rw [Bool.not_eq_true] at hdt
      rcases mapME_datetime_ok_or_valueError vs with ⟨ws, hws⟩ | ⟨m, hm⟩
      · refine ⟨setColValues df "date" ws, te, ?_, ?_⟩
        · simp [hdt, astypeE, hws]
        · intro c hc
          exact getCol_setCol_other df "date" c ws hc
      · exact ⟨df, te ++ ["Column " ++ "date" ++ " could not be converted to " ++
          dtypeName Dtype.datetime64], by simp [hdt, astypeE, hm], fun _ _ => rfl⟩

lemma coerceStep_emissions_ok (df1 : DataFrame) (te : List String) (vs : List Value)
    (hv : getColValues df1 "emissions" = some vs)
    (hnum : ∀ v ∈ vs, numOrNan v = true) :
    ∃ df2 te2 ws, coerceStep (df1, te) ("emissions", .float64) = .ok (df2, te2) ∧
      getColValues df2 "emissions" = some ws ∧
      (∀ v ∈ ws, numOrNan v = true) ∧
      ws.any cellBad = vs.any cellBad := by
  unfold coerceStep
  rw [hv]
  by_cases hdt : (dtypeOf vs == Dtype.float64) = true
  · exact ⟨df1, te, vs, by simp [hdt], hv, hnum, rfl⟩
  · rw [Bool.not_eq_true] at hdt
    have hast : astypeE vs .float64 = .ok (vs.map numCoerce) :=
      mapME_congr_ok cellToFloat numCoerce vs (fun v hvm => cellToFloat_num (hnum v hvm))
    refine ⟨setColValues df1 "emissions" (vs.map numCoerce), te, vs.map numCoerce, ?_, ?_, ?_, ?_⟩
    · simp [hdt, astypeE] at hast ⊢
      simp [hast]
    · exact getCol_setCol_same df1 "emissions" (vs.map numCoerce)
    · intro v hvm
      rcases List.mem_map.mp hvm with ⟨w, hw, rfl⟩
      exact numOrNan_numCoerce (hnum w hw)
    · rw [List.any_map]
      exact anyCongrMem vs (fun v _ => cellBad_numCoerce v)

lemma anyMapPairOr (f g : α → Bool) :
    ∀ l : List α, ((l.map (fun v => (f v, g v))).any fun p => p.1 || p.2) =
      l.any (fun v => f v || g v) := by
  intro l
  induction l with
  | nil => rfl
  | cons a as ih => simp [List.any_cons, ih]

lemma rangePhase_spec (df2 : DataFrame) (ws : List Value)
    (hw : getColValues df2 "emissions" = some ws)
    (hnum : ∀ v ∈ ws, numOrNan v = true) :
    rangePhase df2 = .ok (if ws.any cellBad then [rangeMsg] else []) := by
  unfold rangePhase
  simp only [hw]
  have hlt : mapME (fun v => cellLtE v (Frac.ofInt 0)) ws =
      .ok (ws.map (fun v => cellLtB v (Frac.ofInt 0))) :=
    mapME_congr_ok _ _ ws (fun v hv => cellLtE_num _ (hnum v hv))
  have hgt : mapME (fun v => cellGtE v (Frac.ofInt 1000000000)) ws =
      .ok (ws.map (fun v => cellGtB v (Frac.ofInt 1000000000))) :=
    mapME_congr_ok _ _ ws (fun v hv => cellGtE_num _ (hnum v hv))
  simp only [hlt, hgt]
  have hzip : (ws.map (fun v => cellLtB v (Frac.ofInt 0))).zip
      (ws.map (fun v => cellGtB v (Frac.ofInt 1000000000))) =
      ws.map (fun v => (cellLtB v (Frac.ofInt 0), cellGtB v (Frac.ofInt 1000000000))) :=
    List.zip_map' _ _ ws
  simp only [hzip, anyMapPairOr]
  rfl

lemma datePhase_ok (now : Int) (df2 : DataFrame) :
    ∃ df3 de, datePhase now df2 = .ok (df3, de) := by
  unfold datePhase
  cases hg : getColValues df2 "date" with
  | none => exact ⟨df2, [], rfl⟩
  | some vs =>
    rcases mapME_datetime_ok_or_valueError vs with ⟨ws, hws⟩ | ⟨m, hm⟩
    · refine ⟨setColValues df2 "date" ws,
        (if (ws.any fun v => match v with | Value.date t => decide (now < t) | _ => false)
          then ["Found dates in the future"] else []), ?_⟩
      simp only [hws]
    · exact ⟨df2, ["Invalid date format"], by simp only [hm]⟩

/-- C7: for a table holding both required columns whose emissions cells
are numeric or missing, the validator report has no `value_errors` entry
exactly when every numeric emissions value lies in `[0, 1e9]`, and has
exactly the single entry naming `emissions` when some value falls outside
that range. -/
theorem validate_emissions_range_errors (now : Int) (df : DataFrame) (vs : List Value)
    (hd : "date" ∈ df.colNames)
    (he : getColValues df "emissions" = some vs)
    (hnum : ∀ v ∈ vs, numOrNan v = true) :
    ∃ rep df2, validate_dataframe now df = .ok (rep, df2) ∧
      rep.missing_columns = [] ∧
      rep.value_errors = (if vs.any cellBad then [rangeMsg] else []) := by
  have hem : "emissions" ∈ df.colNames := getCol_mem_colNames he
  have hmiss : checkMissing df = [] := by
    simp [checkMissing, requiredColumns, hd, hem]
  obtain ⟨df1, te1, hstep1, hpres1⟩ := coerceStep_date_ok df []
  have hv1 : getColValues df1 "emissions" = some vs := by
    rw [hpres1 "emissions" (by decide)]
    exact he
  obtain ⟨df2, te2, ws, hstep2, hws, hnum2, hany⟩ :=
    coerceStep_emissions_ok df1 te1 vs hv1 hnum
  have hcoerce : coercePhase df = .ok (df2, te2) := by
    unfold coercePhase
    rw [hstep1]
    exact hstep2
  have hrange := rangePhase_spec df2 ws hws hnum2
  obtain ⟨df3, de, hdate⟩ := datePhase_ok now df2
  refine ⟨⟨[], te2, if vs.any cellBad then [rangeMsg] else [], de⟩, df3, ?_, rfl, rfl⟩
  unfold validate_dataframe
  rw [hmiss]
  rw [hany] at hrange
  simp [hcoerce, hrange, hdate]

/-- Witness for C7 at a frame with one out-of-range emissions value. -/
theorem validate_emissions_range_errors_witness :
    "date" ∈ dfRange.colNames ∧
      getColValues dfRange "emissions" = some [.float ⟨-5, 1⟩] ∧
      (∀ v ∈ [Value.float ⟨-5, 1⟩], numOrNan v = true) ∧
      ∃ rep df2, validate_dataframe 20260101 dfRange = .ok (rep, df2) ∧
        rep.missing_columns = [] ∧
        rep.value_errors = (if [Value.float ⟨-5, 1⟩].any cellBad then [rangeMsg] else []) :=
  ⟨by decide, rfl, by decide,
    validate_emissions_range_errors 20260101 dfRange [.float ⟨-5, 1⟩] (by decide) rfl (by decide)⟩

lemma framePres_setCol (df : DataFrame) (c : String) (vs ws : List Value)
    (hc : getColValues df c = some vs) (hw : ws.length = vs.length) :
    (setColValues df c ws).colNames = df.colNames ∧
      (∀ c2, c2 ≠ c → getColValues (setColValues df c ws) c2 = getColValues df c2) ∧
      (∀ c2 vs2, getColValues df c2 = some vs2 →
        ∃ ws2, getColValues (setColValues df c ws) c2 = some ws2 ∧ ws2.length = vs2.length) := by
  refine ⟨colNames_setCol df c ws (getCol_mem_colNames hc), ?_, ?_⟩
  · intro c2 hc2
    exact getCol_setCol_other df c c2 ws hc2
  · intro c2 vs2 h2
    by_cases hc2 : c2 = c
    · subst hc2
      rw [hc] at h2
      injection h2 with h2
      subst h2
      exact ⟨ws, getCol_setCol_same df c2 ws, hw⟩
    · exact ⟨vs2, by rw [getCol_setCol_other df c c2 ws hc2]; exact h2, rfl⟩

lemma framePres_id (df : DataFrame) :
    df.colNames = df.colNames ∧
      (∀ c2, c2 ≠ "" → getColValues df c2 = getColValues df c2) ∧
      (∀ c2 vs2, getColValues df c2 = some vs2 →
        ∃ ws2, getColValues df c2 = some ws2 ∧ ws2.length = vs2.length) :=
  ⟨rfl, fun _ _ => rfl, fun _ vs2 h2 => ⟨vs2, h2, rfl⟩⟩

lemma coerceStep_framePres (df : DataFrame) (te : List String) (cd : String × Dtype)
    (df2 : DataFrame) (te2 : List String)
    (h : coerceStep (df, te) cd = .ok (df2, te2)) :
    df2.colNames = df.colNames ∧
      (∀ c2, c2 ≠ cd.1 → getColValues df2 c2 = getColValues df c2) ∧
      (∀ c2 vs2, getColValues df c2 = some vs2 →
        ∃ ws2, getColValues df2 c2 = some ws2 ∧ ws2.length = vs2.length) := by
  obtain ⟨c0, d0⟩ := cd
  unfold coerceStep at h
  cases hg : getColValues df c0 with
  | none =>
    rw [hg] at h
    simp only [Except.ok.injEq, Prod.mk.injEq] at h
    rw [← h.1]
    exact ⟨rfl, fun _ _ => rfl, fun _ vs2 h2 => ⟨vs2, h2, rfl⟩⟩
  | some vs =>
    rw [hg] at h
    by_cases hdt : (dtypeOf vs == d0) = true
    · simp only [hdt, if_true, Except.ok.injEq, Prod.mk.injEq] at h
      rw [← h.1]
      exact ⟨rfl, fun _ _ => rfl, fun _ vs2 h2 => ⟨vs2, h2, rfl⟩⟩
    · rw [Bool.not_eq_true] at hdt
      simp only [hdt, Bool.false_eq_true, if_false] at h
      cases ha : astypeE vs d0 with
      | ok ws =>
        rw [ha] at h
        simp only [Except.ok.injEq, Prod.mk.injEq] at h
        rw [← h.1]
        have hlen : ws.length = vs.length := by
          cases d0 <;> simp only [astypeE] at ha
          · injection ha with ha
            rw [← ha]
          · exact mapME_ok_length _ _ _ ha
          · exact mapME_ok_length _ _ _ ha
          · exact mapME_ok_length _ _ _ ha
        exact framePres_setCol df c0 vs ws hg hlen
      | error e =>
        rw [ha] at h
        cases e with
        | valueError m =>
          simp only [Except.ok.injEq, Prod.mk.injEq] at h
          rw [← h.1]
          exact ⟨rfl, fun _ _ => rfl, fun _ vs2 h2 => ⟨vs2, h2, rfl⟩⟩
        | typeError m => simp at h
        | keyError k => simp at h
        | attributeError m => simp at h
        | fileNotFound n => simp at h

lemma datePhase_framePres (now : Int) (df df2 : DataFrame) (de : List String)
    (h : datePhase now df = .ok (df2, de)) :
    df2.colNames = df.colNames ∧
      (∀ c2, c2 ≠ "date" → getColValues df2 c2 = getColValues df c2) ∧
      (∀ c2 vs2, getColValues df c2 = some vs2 →
        ∃ ws2, getColValues df2 c2 = some ws2 ∧ ws2.length = vs2.length) := by
  unfold datePhase at h
  cases hg : getColValues df "date" with
  | none =>
    rw [hg] at h
    simp only [Except.ok.injEq, Prod.mk.injEq] at h
    rw [← h.1]
    exact ⟨rfl, fun _ _ => rfl, fun _ vs2 h2 => ⟨vs2, h2, rfl⟩⟩
  | some vs =>
    simp only [hg] at h
    cases hm : mapME cellToDatetime vs with
    | ok ws =>
      simp only [hm] at h
      simp only [Except.ok.injEq, Prod.mk.injEq] at h
      rw [← h.1]
      exact framePres_setCol df "date" vs ws hg (mapME_ok_length _ _ _ hm)
    | error e =>
      simp only [hm] at h
      cases e with
      | valueError m =>
        simp only [Except.ok.injEq, Prod.mk.injEq] at h
        rw [← h.1]
        exact ⟨rfl, fun _ _ => rfl, fun _ vs2 h2 => ⟨vs2, h2, rfl⟩⟩
      | typeError m => simp at h
      | keyError k => simp at h
      | attributeError m => simp at h
      | fileNotFound n => simp at h

/-- C8 corrected: `validate_dataframe` does mutate the caller's table (the
required-column coercions persist), but nothing else changes — the column
labels, every column not named `date` or `emissions`, and every column
length are exactly those of the input. -/
theorem validate_frame_effect (now : Int) (df : DataFrame) (rep : Report) (df2 : DataFrame)
    (h : validate_dataframe now df = .ok (rep, df2)) :
    df2.colNames = df.colNames ∧
      (∀ c, c ≠ "date" → c ≠ "emissions" → getColValues df2 c = getColValues df c) ∧
      (∀ c vs, getColValues df c = some vs →
        ∃ ws, getColValues df2 c = some ws ∧ ws.length = vs.length) := by
  unfold validate_dataframe at h
  by_cases hm : (checkMissing df).isEmpty = true
  · simp only [hm, if_true] at h
    cases hc : coercePhase df with
    | error e =>
      simp only [hc] at h
      exact Except.noConfusion h
    | ok acc1 =>
      obtain ⟨df1, te1⟩ := acc1
      simp only [hc] at h
      cases hr : rangePhase df1 with
      | error e =>
        simp only [hr] at h
        exact Except.noConfusion h
      | ok ve =>
        simp only [hr] at h
        cases hdp : datePhase now df1 with
        | error e =>
          simp only [hdp] at h
          exact Except.noConfusion h
        | ok acc2 =>
          obtain ⟨dfx, de⟩ := acc2
          simp only [hdp] at h
          simp only [Except.ok.injEq, Prod.mk.injEq] at h
          have hdf2 : df2 = dfx := h.2.symm
          subst hdf2
          unfold coercePhase at hc
          cases hs1 : coerceStep (df, []) ("date", .datetime64) with
          | error e =>
            simp only [hs1] at hc
            exact Except.noConfusion hc
          | ok acc0 =>
            obtain ⟨df0, te0⟩ := acc0
            simp only [hs1] at hc
            have p1 := coerceStep_framePres df [] ("date", .datetime64) df0 te0 hs1
            have p2 := coerceStep_framePres df0 te0 ("emissions", .float64) df1 te1 hc
            have p3 := datePhase_framePres now df1 df2 de hdp
            refine ⟨p3.1.trans (p2.1.trans p1.1), ?_, ?_⟩
            · intro c hcd hce
              rw [p3.2.1 c hcd, p2.2.1 c hce, p1.2.1 c hcd]
            · intro c vs hv
              obtain ⟨w1, hw1, hl1⟩ := p1.2.2 c vs hv
              obtain ⟨w2, hw2, hl2⟩ := p2.2.2 c w1 hw1
              obtain ⟨w3, hw3, hl3⟩ := p3.2.2 c w2 hw2
              exact ⟨w3, hw3, by rw [hl3, hl2, hl1]⟩
  · rw [Bool.not_eq_true] at hm
    simp only [hm, Bool.false_eq_true, if_false, Except.ok.injEq, Prod.mk.injEq] at h
    rw [← h.2]
    exact ⟨rfl, fun _ _ _ => rfl, fun _ vs h2 => ⟨vs, h2, rfl⟩⟩

/-- Witness for C8 at the frame whose date and emissions columns both get
coerced. -/
theorem validate_frame_effect_witness :
    validate_dataframe 20260101 df8 = .ok (⟨[], [], [], []⟩, df8coerced) ∧
      (df8coerced.colNames = df8.colNames ∧
        (∀ c, c ≠ "date" → c ≠ "emissions" →
          getColValues df8coerced c = getColValues df8 c) ∧
        (∀ c vs, getColValues df8 c = some vs →
          ∃ ws, getColValues df8coerced c = some ws ∧ ws.length = vs.length)) :=
  ⟨rfl, validate_frame_effect 20260101 df8 ⟨[], [], [], []⟩ df8coerced rfl⟩

lemma find?_county_map_rename (o n : String) (ho : o ≠ "county") (hn : n ≠ "county") :
    ∀ cols : List (String × List Value),
      (((cols.map (fun p => if p.1 = o then (n, p.2) else p)).find?
          (fun p => p.1 == "county")).map Prod.snd) =
        ((cols.find? (fun p => p.1 == "county")).map Prod.snd) := by
  intro cols
  induction cols with
  | nil => rfl
  | cons p rest ih =>
    obtain ⟨m, ws⟩ := p
    by_cases hm : m = o
    · subst hm
      have h1 : (n == "county") = false := by simp [beq_iff_eq, hn]
      have h2 : (m == "county") = false := by simp [beq_iff_eq, ho]
      simp only [List.map_cons, if_pos rfl, if_true, List.find?, h1, h2, ih]
    · simp only [List.map_cons, if_neg hm]
      by_cases hq : (m == "county") = true
      · simp [List.find?, hq]
      · rw [Bool.not_eq_true] at hq
        simp only [List.find?, hq, ih]

lemma renameOne_getCol_county (df : DataFrame) (o n : String)
    (ho : o ≠ "county") (hn : n ≠ "county") :
    getColValues (renameOne df o n) "county" = getColValues df "county" := by
  unfold renameOne
  by_cases hg : (df.colNames.contains o && !(df.colNames.contains n)) = true
  · simp only [hg, if_true]
    exact find?_county_map_rename o n ho hn df.cols
  · rw [Bool.not_eq_true] at hg
    simp only [hg, Bool.false_eq_true, if_false]

lemma renameStage_getCol_county (df : DataFrame) :
    getColValues (renameStage df) "county" = getColValues df "county" := by
  unfold renameStage renameMap
  simp only [List.foldl]
  rw [renameOne_getCol_county _ _ _ (by decide) (by decide),
    renameOne_getCol_county _ _ _ (by decide) (by decide),
    renameOne_getCol_county _ _ _ (by decide) (by decide)]

lemma numericStep_getCol_county (df : DataFrame) (cd : String × Dtype) (df2 : DataFrame)
    (hc : cd.1 ≠ "county") (h : numericStep df cd = .ok df2) :
    getColValues df2 "county" = getColValues df "county" := by
  unfold numericStep at h
  cases hg : getColValues df cd.1 with
  | none =>
    rw [hg] at h
    injection h with h
    rw [← h]
  | some vs =>
    simp only [hg] at h
    cases ha : astypeE (vs.map toNumericCoerceCell) cd.2 with
    | error e =>
      simp only [ha] at h
      exact Except.noConfusion h
    | ok vs2 =>
      simp only [ha, Except.ok.injEq] at h
      rw [← h]
      rw [getCol_setCol_other _ _ _ _ (Ne.symm hc), getCol_setCol_other _ _ _ _ (Ne.symm hc)]

lemma foldME_numeric_getCol_county :
    ∀ (cds : List (String × Dtype)) (df df2 : DataFrame),
      (∀ cd ∈ cds, cd.1 ≠ "county") → foldME numericStep df cds = .ok df2 →
      getColValues df2 "county" = getColValues df "county" := by
  intro cds
  induction cds with
  | nil =>
    intro df df2 _ h
    simp only [foldME, Except.ok.injEq] at h
    rw [← h]
  | cons cd rest ih =>
    intro df df2 hne h
    simp only [foldME] at h
    cases hs : numericStep df cd with
    | error e =>
      simp only [hs] at h
      exact Except.noConfusion h
    | ok dfm =>
      simp only [hs] at h
      rw [ih dfm df2 (fun c hc => hne c (by simp [hc])) h,
        numericStep_getCol_county df cd dfm (hne cd (by simp)) hs]

lemma sectorFullStage_getCol_county (df : DataFrame) :
    getColValues (sectorFullStage df) "county" = getColValues df "county" := by
  unfold sectorFullStage
  by_cases hg : (df.colNames.contains "sector_name" && df.colNames.contains "subsector_name") = true
  · simp only [hg, if_true]
    exact getCol_setCol_other _ _ _ _ (by decide)
  · rw [Bool.not_eq_true] at hg
    simp only [hg, Bool.false_eq_true, if_false]

lemma dateStage_getCol_county (df df2 : DataFrame) (h : dateStage df = .ok df2) :
    getColValues df2 "county" = getColValues df "county" := by
  unfold dateStage at h
  by_cases hg : (df.colNames.contains "year" && !(df.colNames.contains "date")) = true
  · simp only [hg, if_true] at h
    cases hm : mapME yearToDateE ((getColValues df "year").getD []) with
    | error e =>
      simp only [hm] at h
      exact Except.noConfusion h
    | ok ds =>
      simp only [hm, Except.ok.injEq] at h
      rw [← h]
      exact getCol_setCol_other _ _ _ _ (by decide)
  · rw [Bool.not_eq_true] at hg
    simp only [hg, Bool.false_eq_true, if_false, Except.ok.injEq] at h
    rw [← h]

lemma getCol_selectRows_aux (idxs : List Nat) (c : String) :
    ∀ cols : List (String × List Value),
      (((cols.map (fun p => (p.1, idxs.filterMap p.2.get?))).find?
          (fun p => p.1 == c)).map Prod.snd) =
        ((cols.find? (fun p => p.1 == c)).map
          Prod.snd).map (fun vs => idxs.filterMap vs.get?) := by
  intro cols
  induction cols with
  | nil => rfl
  | cons p rest ih =>
    by_cases hq : (p.1 == c) = true
    · simp [List.find?, hq]
    · rw [Bool.not_eq_true] at hq
      simp only [List.map_cons, List.find?, hq, ih]

lemma getCol_selectRows (df : DataFrame) (idxs : List Nat) (c : String) :
    getColValues (selectRows df idxs) c =
      (getColValues df c).map (fun vs => idxs.filterMap vs.get?) := by
  unfold selectRows getColValues
  simpa using getCol_selectRows_aux idxs c df.cols

lemma countyMem_selectRows (df : DataFrame) (idxs : List Nat) (v : Value)
    (h : v ∈ countyValuesOf (selectRows df idxs)) : v ∈ countyValuesOf df := by
  unfold countyValuesOf at h ⊢
  rw [getCol_selectRows] at h
  cases hg : getColValues df "county" with
  | none =>
    rw [hg] at h
    simp at h
  | some vs =>
    rw [hg] at h
    simp only [Option.map_some', Option.getD_some] at h
    rcases List.mem_filterMap.mp h with ⟨i, _, hi⟩
    simpa using List.get?_mem hi

lemma countyMem_dedupStage (df : DataFrame) (v : Value)
    (h : v ∈ countyValuesOf (dedupStage df)) : v ∈ countyValuesOf df :=
  countyMem_selectRows df (dedupIdxs df) v h

lemma countyMem_sortStage (df : DataFrame) (v : Value)
    (h : v ∈ countyValuesOf (sortStage df)) : v ∈ countyValuesOf df := by
  unfold sortStage at h
  by_cases hg : (df.colNames.contains "year" && df.colNames.contains "emissions") = true
  · rw [if_pos hg] at h
    exact countyMem_selectRows df _ v h
  · rw [Bool.not_eq_true] at hg
    rw [hg] at h
    simpa using h

/-- C9 counterexample: `preprocess_data` leaves a lower-case padded
county value exactly as it came in — no upper-casing, trimming, or
COUNTY-suffix stripping happens at this layer. -/
theorem preprocess_county_not_normalized_cex :
    preprocess_data dfC9 = .ok dfC9out ∧
      getColValues dfC9out "county" = some [.str " bergen county "] ∧
      Value.str " bergen county " ≠ Value.str "BERGEN" := ⟨rfl, rfl, by decide⟩

/-- C9 amended: `preprocess_data` does not normalize `county` at all —
every county value of the returned table occurs unchanged among the
county values of the input table (rows may only be dropped by
deduplication or reordered by the sort). -/
theorem preprocess_preserves_county_values (df df2 : DataFrame)
    (h : preprocess_data df = .ok df2) :
    ∀ v, v ∈ countyValuesOf df2 → v ∈ countyValuesOf df := by
  unfold preprocess_data at h
  by_cases he : dfEmpty df = true
  · simp only [he, if_true, Except.ok.injEq] at h
    rw [← h]
    exact fun _ hv => hv
  · rw [Bool.not_eq_true] at he
    simp only [he, Bool.false_eq_true, if_false] at h
    cases hn : numericStage (renameStage df) with
    | error e =>
      simp only [hn] at h
      exact Except.noConfusion h
    | ok d2 =>
      simp only [hn] at h
      cases hd : dateStage (sectorFullStage d2) with
      | error e =>
        simp only [hd] at h
        exact Except.noConfusion h
      | ok d4 =>
        simp only [hd, Except.ok.injEq] at h
        intro v hv
        rw [← h] at hv
        have h4 := countyMem_dedupStage d4 v (countyMem_sortStage (dedupStage d4) v hv)
        have e4 : getColValues d4 "county" = getColValues df "county" := by
          rw [dateStage_getCol_county (sectorFullStage d2) d4 hd,
            sectorFullStage_getCol_county d2,
            foldME_numeric_getCol_county numericCols (renameStage df) d2
              (by decide) hn,
            renameStage_getCol_county df]
        unfold countyValuesOf at h4 ⊢
        rw [e4] at h4
        exact h4

/-- Witness for C9 at the raw EPA row with the padded lower-case county. -/
theorem preprocess_preserves_county_values_witness :
    preprocess_data dfC9 = .ok dfC9out ∧
      Value.str " bergen county " ∈ countyValuesOf dfC9out ∧
      Value.str " bergen county " ∈ countyValuesOf dfC9 :=
  ⟨rfl, by decide,
    preprocess_preserves_county_values dfC9 dfC9out rfl (Value.str " bergen county ") (by decide)⟩

end GhgQuant
